import Mathlib

/-!
Verification of the HandyBangla booking server core: the booking status
state machine exposed at PATCH /bookings/:id/status, the notification
fan-out (ledger write, realtime push, best-effort email), the socket.io
chat handlers (join_booking, send_message) and the notification listing
endpoint.  Each definition is a shallow embedding of the corresponding
TypeScript handler; theorems settle the specification claims C1..C10.
-/

namespace HandyBangla

/-- Booking status enum from the Prisma schema, as used by the routers. -/
inductive BookingStatus
  | PENDING
  | ACCEPTED
  | DECLINED
  | CANCELLED
  | COMPLETED
deriving DecidableEq, Repr

/-- User role enum: auth middleware resolves every bearer token to one of
these three roles. -/
inductive Role
  | CUSTOMER
  | PROVIDER
  | ADMIN
deriving DecidableEq, Repr

/-- The booking row fields the transition and chat handlers consult. -/
structure Booking where
  id : Nat
  customerId : Nat
  providerId : Nat
  status : BookingStatus
deriving DecidableEq, Repr

/-- The zod schema on PATCH /bookings/:id/status:
`z.enum(["ACCEPTED", "DECLINED", "CANCELLED", "COMPLETED"])`.
PENDING is not an accepted request value. -/
def allowedTarget : BookingStatus → Bool
  | .PENDING => false
  | _ => true

/-- Error outcomes of the status-update handler: zod validation failure
(400), "Booking not found" (404), "Access denied" (403), and the 400
transition-rule errors with their message strings. -/
inductive TransitionError
  | validationError
  | notFound
  | accessDenied
  | invalidTransition (msg : String)
deriving DecidableEq, Repr

/-- `prisma.booking.findUnique({ where: { id } })` over a list-of-rows view
of the booking table. -/
def findBooking (db : List Booking) (id : Nat) : Option Booking :=
  db.find? (fun b => b.id == id)

/-- `prisma.booking.update({ where: { id }, data: { status } })` : the row
with the given id gets the new status, all other rows are untouched. -/
def setStatus (db : List Booking) (id : Nat) (s : BookingStatus) : List Booking :=
  db.map (fun b => if b.id == id then { b with status := s } else b)

/-- The PATCH /bookings/:id/status handler (bookings router), step by step:
zod-parse the target status, load the booking (404 if absent), the two
role-conditioned party checks (403 "Access denied"), the provider
transition rules, the customer rule
`userRole === "CUSTOMER" && status !== "CANCELLED" && booking.status !== "PENDING"`,
and finally the unconditional update.  Returns the handler response
together with the booking table after the call. -/
def patchBookingStatus (db : List Booking) (bookingId userId : Nat)
    (userRole : Role) (target : BookingStatus) :
    Except TransitionError Booking × List Booking :=
  if allowedTarget target = false then
    (.error .validationError, db)
  else
    match findBooking db bookingId with
    | none => (.error .notFound, db)
    | some booking =>
      if userRole = .PROVIDER ∧ booking.providerId ≠ userId then
        (.error .accessDenied, db)
      else if userRole = .CUSTOMER ∧ booking.customerId ≠ userId then
        (.error .accessDenied, db)
      else if userRole = .PROVIDER ∧ target = .COMPLETED ∧ booking.status ≠ .ACCEPTED then
        (.error (.invalidTransition "Can only complete accepted bookings"), db)
      else if userRole = .PROVIDER ∧ (target = .ACCEPTED ∨ target = .DECLINED) ∧
          booking.status ≠ .PENDING then
        (.error (.invalidTransition "Can only accept or decline pending bookings"), db)
      else if userRole = .PROVIDER ∧
          ¬(target = .ACCEPTED ∨ target = .DECLINED ∨ target = .COMPLETED) then
        (.error (.invalidTransition "Invalid status for provider"), db)
      else if userRole = .CUSTOMER ∧ target ≠ .CANCELLED ∧ booking.status ≠ .PENDING then
        (.error (.invalidTransition "Can only cancel pending bookings"), db)
      else
        (.ok { booking with status := target }, setStatus db bookingId target)

/-- Notification type enum from the Prisma schema. -/
inductive NotifType
  | BOOKING_CREATED
  | BOOKING_ACCEPTED
  | BOOKING_DECLINED
  | BOOKING_COMPLETED
  | BOOKING_CANCELLED
  | MESSAGE_RECEIVED
  | RATING_RECEIVED
deriving DecidableEq, Repr

/-- The fields of a notification row that the dispatch claims consult. -/
structure Notif where
  userId : Nat
  type : NotifType
  bookingId : Nat
deriving DecidableEq, Repr

/-- `notifyBookingStatusChange(booking, status)` (lib/notifications.ts):
looks the status up in `statusMessages` (keys ACCEPTED, DECLINED,
COMPLETED, CANCELLED; anything else returns without a notification) and
creates one notification addressed to `booking.customerId`. -/
def notifyBookingStatusChange (booking : Booking) (status : BookingStatus) :
    Option Notif :=
  match status with
  | .ACCEPTED => some ⟨booking.customerId, .BOOKING_ACCEPTED, booking.id⟩
  | .DECLINED => some ⟨booking.customerId, .BOOKING_DECLINED, booking.id⟩
  | .COMPLETED => some ⟨booking.customerId, .BOOKING_COMPLETED, booking.id⟩
  | .CANCELLED => some ⟨booking.customerId, .BOOKING_CANCELLED, booking.id⟩
  | .PENDING => none

/-- The status-update handler followed by its notification step: on a
successful update the handler responds and then calls
`notifyBookingStatusChange(updated, status)`; on any error no
notification is produced. -/
def patchBookingStatusWithNotify (db : List Booking) (bookingId userId : Nat)
    (userRole : Role) (target : BookingStatus) :
    Except TransitionError Booking × List Booking × Option Notif :=
  match patchBookingStatus db bookingId userId userRole target with
  | (.ok updated, db2) => (.ok updated, db2, notifyBookingStatusChange updated target)
  | (.error e, db2) => (.error e, db2, none)

/-- C1: the spec says no API path can move a PENDING booking directly to
COMPLETED, but the customer guard in the handler only fires when the
booking is NOT pending, so the booking's own customer can set COMPLETED
on a PENDING booking: the call succeeds and persists COMPLETED. -/
theorem C1_pending_to_completed_by_customer :
    patchBookingStatus [⟨1, 10, 20, .PENDING⟩] 1 10 .CUSTOMER .COMPLETED =
      (.ok ⟨1, 10, 20, .COMPLETED⟩, [⟨1, 10, 20, .COMPLETED⟩]) := by
  rfl

/-- C2: the spec says a requester cancel on a non-PENDING booking fails
with InvalidTransition, but when the target is CANCELLED the customer
guard is skipped entirely, so the customer cancels even a COMPLETED
booking and the persisted status becomes CANCELLED. -/
theorem C2_cancel_completed_by_customer :
    patchBookingStatus [⟨1, 10, 20, .COMPLETED⟩] 1 10 .CUSTOMER .CANCELLED =
      (.ok ⟨1, 10, 20, .CANCELLED⟩, [⟨1, 10, 20, .CANCELLED⟩]) := by
  rfl

/-- C3 counterexample: an ADMIN (id 99, neither the customer 10 nor the
provider 20) sends a transition on the customer-facing endpoint.  The
claim says every non-party actor gets Forbidden and the status stays
put; instead both role-conditioned party checks and every transition
rule are skipped and the update is applied. -/
theorem C3_admin_bypasses_party_check :
    (99 : Nat) ≠ 10 ∧ (99 : Nat) ≠ 20 ∧
    patchBookingStatus [⟨1, 10, 20, .PENDING⟩] 1 99 .ADMIN .ACCEPTED =
      (.ok ⟨1, 10, 20, .ACCEPTED⟩, [⟨1, 10, 20, .ACCEPTED⟩]) := by
  refine ⟨by decide, by decide, rfl⟩

/-- C3 (amended): with a valid target and an existing booking, a PROVIDER
actor who is not the booking's provider, or a CUSTOMER actor who is not
the booking's customer, gets "Access denied" and the table is unchanged;
but an ADMIN actor bypasses the party check and every transition rule,
and the update is applied unconditionally. -/
theorem C3_party_gate (db : List Booking) (bid uid : Nat) (role : Role)
    (target : BookingStatus) (b : Booking)
    (htgt : allowedTarget target = true) (hfind : findBooking db bid = some b) :
    (((role = .PROVIDER ∧ b.providerId ≠ uid) ∨ (role = .CUSTOMER ∧ b.customerId ≠ uid)) →
      patchBookingStatus db bid uid role target = (.error .accessDenied, db)) ∧
    (role = .ADMIN →
      patchBookingStatus db bid uid role target =
        (.ok { b with status := target }, setStatus db bid target)) := by
  constructor
  · rintro (⟨hr, hp⟩ | ⟨hr, hp⟩) <;> subst hr <;>
      simp [patchBookingStatus, htgt, hfind, hp]
  · rintro rfl
    simp [patchBookingStatus, htgt, hfind]

/-- Witness for C3_party_gate at a concrete table: customer 11 is not the
booking's customer and is denied; admin is let through. -/
theorem C3_party_gate_witness :
    (patchBookingStatus [⟨1, 10, 20, BookingStatus.PENDING⟩] 1 11 .CUSTOMER .CANCELLED =
      (.error .accessDenied, [⟨1, 10, 20, BookingStatus.PENDING⟩])) ∧
    (patchBookingStatus [⟨1, 10, 20, BookingStatus.PENDING⟩] 1 99 .ADMIN .COMPLETED =
      (.ok ⟨1, 10, 20, BookingStatus.COMPLETED⟩,
        setStatus [⟨1, 10, 20, BookingStatus.PENDING⟩] 1 .COMPLETED)) := by
  have h := C3_party_gate [⟨1, 10, 20, BookingStatus.PENDING⟩] 1 11 .CUSTOMER
    .CANCELLED ⟨1, 10, 20, BookingStatus.PENDING⟩ (by decide) (by decide)
  have h2 := C3_party_gate [⟨1, 10, 20, BookingStatus.PENDING⟩] 1 99 .ADMIN
    .COMPLETED ⟨1, 10, 20, BookingStatus.PENDING⟩ (by decide) (by decide)
  exact ⟨h.1 (Or.inr ⟨rfl, by decide⟩), h2.2 rfl⟩

/-- C4 counterexample: customer 10 (the requester) cancels their own
PENDING booking; the emitted notification is addressed to userId 10 —
the requester who performed the action — not to the fulfiller 20, so
the "always the counterparty" claim fails on requester cancels. -/
theorem C4_requester_cancel_notifies_requester :
    patchBookingStatusWithNotify [⟨1, 10, 20, .PENDING⟩] 1 10 .CUSTOMER .CANCELLED =
      (.ok ⟨1, 10, 20, .CANCELLED⟩, [⟨1, 10, 20, .CANCELLED⟩],
        some ⟨10, .BOOKING_CANCELLED, 1⟩) ∧ (10 : Nat) ≠ 20 := by
  refine ⟨rfl, by decide⟩

/-- C4 (amended): for every successful transition the single emitted
notification is addressed to the booking's customer (the requester) —
which is the counterparty when the fulfiller acts, but is the actor
themselves when the requester cancels. -/
theorem C4_recipient_always_customer (db : List Booking) (bid uid : Nat)
    (role : Role) (target : BookingStatus) (u : Booking)
    (h : (patchBookingStatusWithNotify db bid uid role target).1 = .ok u) :
    Option.map Notif.userId (patchBookingStatusWithNotify db bid uid role target).2.2 =
      some u.customerId := by
  rcases hp : patchBookingStatus db bid uid role target with ⟨r1, db2⟩
  cases r1 with
  | error e =>
    simp [patchBookingStatusWithNotify, hp] at h
  | ok updated =>
    simp only [patchBookingStatusWithNotify, hp] at h ⊢
    replace h : updated = u := by simpa using h
    subst h
    cases target with
    | PENDING =>
      rw [show patchBookingStatus db bid uid role .PENDING =
          (.error .validationError, db) from rfl] at hp
      simp at hp
    | ACCEPTED => simp [notifyBookingStatusChange]
    | DECLINED => simp [notifyBookingStatusChange]
    | CANCELLED => simp [notifyBookingStatusChange]
    | COMPLETED => simp [notifyBookingStatusChange]

/-- Witness for C4_recipient_always_customer: provider 20 accepts the
pending booking and the notification goes to customer 10. -/
theorem C4_recipient_always_customer_witness :
    Option.map Notif.userId
      (patchBookingStatusWithNotify [⟨1, 10, 20, BookingStatus.PENDING⟩]
        1 20 .PROVIDER .ACCEPTED).2.2 = some 10 :=
  C4_recipient_always_customer [⟨1, 10, 20, BookingStatus.PENDING⟩] 1 20
    .PROVIDER .ACCEPTED ⟨1, 10, 20, BookingStatus.ACCEPTED⟩ rfl

/-- Updating the status of a row found by id makes the later lookup of
that id return the same row with the new status. -/
theorem findBooking_setStatus :
    ∀ (db : List Booking) (id : Nat) (s : BookingStatus) (b : Booking),
      findBooking db id = some b →
      findBooking (setStatus db id s) id = some { b with status := s }
  | [], _, _, _, h => by simp [findBooking] at h
  | x :: xs, id, s, b, h => by
    have hmap : setStatus (x :: xs) id s =
        (if x.id == id then { x with status := s } else x) :: setStatus xs id s := rfl
    by_cases hx : x.id = id
    · have hxb : (x.id == id) = true := by simpa using hx
      have hc : List.find? (fun b : Booking => b.id == id) (x :: xs) = some x :=
        List.find?_cons_of_pos _ hxb
      rw [findBooking, hc] at h
      injection h with h
      subst h
      rw [findBooking, hmap, if_pos hxb]
      exact List.find?_cons_of_pos _ hxb
    · have hxb : ¬(x.id == id) = true := by simpa using hx
      have hc : List.find? (fun b : Booking => b.id == id) (x :: xs) =
          List.find? (fun b : Booking => b.id == id) xs :=
        List.find?_cons_of_neg _ hxb
      rw [findBooking, hc] at h
      have h2 : List.find? (fun b : Booking => b.id == id)
          (x :: setStatus xs id s) =
          List.find? (fun b : Booking => b.id == id) (setStatus xs id s) :=
        List.find?_cons_of_neg _ hxb
      rw [findBooking, hmap, if_neg hxb, h2]
      exact findBooking_setStatus xs id s b h

/-- C8: on a PENDING booking the provider's first ACCEPTED call succeeds
and persists ACCEPTED; re-issuing the identical call then fails with the
"Can only accept or decline pending bookings" error (the source status no
longer matches) and the table is unchanged. -/
theorem C8_accept_then_accept (db : List Booking) (bid uid : Nat) (b : Booking)
    (hfind : findBooking db bid = some b) (hst : b.status = .PENDING)
    (hprov : b.providerId = uid) :
    patchBookingStatus db bid uid .PROVIDER .ACCEPTED =
      (.ok { b with status := .ACCEPTED }, setStatus db bid .ACCEPTED) ∧
    patchBookingStatus (setStatus db bid .ACCEPTED) bid uid .PROVIDER .ACCEPTED =
      (.error (.invalidTransition "Can only accept or decline pending bookings"),
        setStatus db bid .ACCEPTED) := by
  have hfind2 := findBooking_setStatus db bid .ACCEPTED b hfind
  constructor
  · simp [patchBookingStatus, allowedTarget, hfind, hst, hprov]
  · simp [patchBookingStatus, allowedTarget, hfind2, hprov]

/-- Witness for C8_accept_then_accept at a concrete PENDING booking. -/
theorem C8_accept_then_accept_witness :
    patchBookingStatus [⟨1, 10, 20, BookingStatus.PENDING⟩] 1 20 .PROVIDER .ACCEPTED =
      (.ok ⟨1, 10, 20, BookingStatus.ACCEPTED⟩,
        setStatus [⟨1, 10, 20, BookingStatus.PENDING⟩] 1 .ACCEPTED) ∧
    patchBookingStatus (setStatus [⟨1, 10, 20, BookingStatus.PENDING⟩] 1 .ACCEPTED)
        1 20 .PROVIDER .ACCEPTED =
      (.error (.invalidTransition "Can only accept or decline pending bookings"),
        setStatus [⟨1, 10, 20, BookingStatus.PENDING⟩] 1 .ACCEPTED) :=
  C8_accept_then_accept [⟨1, 10, 20, BookingStatus.PENDING⟩] 1 20
    ⟨1, 10, 20, BookingStatus.PENDING⟩ rfl rfl rfl

/-- A persisted chat message row: booking, sender and the stored body
(the handler stores the trimmed request body). -/
structure Message where
  bookingId : Nat
  senderId : Nat
  body : String
deriving DecidableEq, Repr

/-- Socket emissions of the chat handlers: `socket.emit("error", {message})`
and the `new_message` broadcast to the per-booking room. -/
inductive SocketEvent
  | errorEvent (message : String)
  | newMessage (room : Nat) (m : Message)
deriving DecidableEq, Repr

/-- The state a send_message call can touch: the booking table, the
persisted messages, the notification rows and the emissions so far. -/
structure ChatState where
  bookings : List Booking
  messages : List Message
  notifs : List Notif
  events : List SocketEvent
deriving DecidableEq, Repr

/-- JavaScript `String.prototype.trim`: strip leading and trailing
whitespace (structurally recursive model, so that proofs can evaluate
it on concrete strings). -/
def jsTrim (s : String) : String :=
  ⟨((s.data.dropWhile Char.isWhitespace).reverse.dropWhile Char.isWhitespace).reverse⟩

/-- `notifyMessageReceived(message, recipientId)` (lib/notifications.ts):
one MESSAGE_RECEIVED notification for the recipient. -/
def notifyMessageReceived (m : Message) (recipientId : Nat) : Notif :=
  ⟨recipientId, .MESSAGE_RECEIVED, m.bookingId⟩

/-- The socket.io send_message handler (lib/socket.ts): load the booking
(emit "Booking not found" if absent), reject non-participants with
"Access denied", otherwise persist the message with the trimmed body,
broadcast it to the booking room, and notify the other participant.
There is no emptiness check on the trimmed body. -/
def sendMessage (st : ChatState) (senderId bookingId : Nat) (body : String) :
    ChatState :=
  match findBooking st.bookings bookingId with
  | none => { st with events := st.events ++ [.errorEvent "Booking not found"] }
  | some booking =>
    if booking.customerId ≠ senderId ∧ booking.providerId ≠ senderId then
      { st with events := st.events ++ [.errorEvent "Access denied"] }
    else
      let m : Message := ⟨bookingId, senderId, jsTrim body⟩
      let recipientId :=
        if booking.customerId = senderId then booking.providerId else booking.customerId
      { st with
        messages := st.messages ++ [m]
        events := st.events ++ [.newMessage bookingId m]
        notifs := st.notifs ++ [notifyMessageReceived m recipientId] }

/-- The socket.io join_booking handler: join the per-booking room only if
the booking exists and the connected user is one of its two participants;
in every other case do nothing and emit nothing.  Returns the updated
room list together with the emissions of the call. -/
def joinBooking (bookings : List Booking) (uid bid : Nat) (rooms : List Nat) :
    List Nat × List SocketEvent :=
  match findBooking bookings bid with
  | none => (rooms, [])
  | some b =>
    if b.customerId = uid ∨ b.providerId = uid then (rooms ++ [bid], [])
    else (rooms, [])

/-- C5 counterexample: participant 10 sends a body of blanks; the claim
says an empty-after-trim body is rejected with nothing persisted and
nothing broadcast, but the handler persists a message with empty body
and broadcasts it. -/
theorem C5_blank_body_persisted_and_broadcast :
    (sendMessage ⟨[⟨1, 10, 20, .PENDING⟩], [], [], []⟩ 10 1 "  ").messages =
      [⟨1, 10, ""⟩] ∧
    (sendMessage ⟨[⟨1, 10, 20, .PENDING⟩], [], [], []⟩ 10 1 "  ").events =
      [.newMessage 1 ⟨1, 10, ""⟩] := by
  constructor <;> decide

/-- C5 (amended): for every participant send, the stored body is the
trimmed request body and the message is persisted and broadcast — for
every body, including one that is empty after trimming; no rejection of
empty bodies takes place. -/
theorem C5_trimmed_body_always_persisted (st : ChatState) (uid bid : Nat)
    (body : String) (b : Booking)
    (hfind : findBooking st.bookings bid = some b)
    (hparty : b.customerId = uid ∨ b.providerId = uid) :
    (sendMessage st uid bid body).messages = st.messages ++ [⟨bid, uid, jsTrim body⟩] ∧
    (sendMessage st uid bid body).events =
      st.events ++ [.newMessage bid ⟨bid, uid, jsTrim body⟩] := by
  have hnot : ¬(b.customerId ≠ uid ∧ b.providerId ≠ uid) := by
    rcases hparty with h | h <;> simp [h]
  rw [sendMessage, hfind]
  simp [hnot]

/-- Witness for C5_trimmed_body_always_persisted: the provider sends a
blank body and it is persisted as the empty string. -/
theorem C5_trimmed_body_always_persisted_witness :
    (sendMessage ⟨[⟨1, 10, 20, BookingStatus.PENDING⟩], [], [], []⟩ 20 1 " x ").messages =
      [] ++ [⟨1, 20, jsTrim " x "⟩] ∧
    (sendMessage ⟨[⟨1, 10, 20, BookingStatus.PENDING⟩], [], [], []⟩ 20 1 " x ").events =
      [] ++ [.newMessage 1 ⟨1, 20, jsTrim " x "⟩] :=
  C5_trimmed_body_always_persisted ⟨[⟨1, 10, 20, BookingStatus.PENDING⟩], [], [], []⟩
    20 1 " x " ⟨1, 10, 20, BookingStatus.PENDING⟩ rfl (Or.inr rfl)

/-- C6: a send by a user who is neither the customer nor the provider of
an existing booking emits only "Access denied": no message row is
persisted, no notification is written and nothing is broadcast. -/
theorem C6_nonparticipant_send_rejected (st : ChatState) (uid bid : Nat)
    (body : String) (b : Booking)
    (hfind : findBooking st.bookings bid = some b)
    (hc : b.customerId ≠ uid) (hp : b.providerId ≠ uid) :
    (sendMessage st uid bid body).messages = st.messages ∧
    (sendMessage st uid bid body).notifs = st.notifs ∧
    (sendMessage st uid bid body).events = st.events ++ [.errorEvent "Access denied"] := by
  rw [sendMessage, hfind]
  simp [hc, hp]

/-- Witness for C6_nonparticipant_send_rejected: user 99 is not a
participant of the only booking. -/
theorem C6_nonparticipant_send_rejected_witness :
    (sendMessage ⟨[⟨1, 10, 20, BookingStatus.PENDING⟩], [], [], []⟩ 99 1 "hi").messages = [] ∧
    (sendMessage ⟨[⟨1, 10, 20, BookingStatus.PENDING⟩], [], [], []⟩ 99 1 "hi").notifs = [] ∧
    (sendMessage ⟨[⟨1, 10, 20, BookingStatus.PENDING⟩], [], [], []⟩ 99 1 "hi").events =
      [] ++ [.errorEvent "Access denied"] :=
  C6_nonparticipant_send_rejected ⟨[⟨1, 10, 20, BookingStatus.PENDING⟩], [], [], []⟩
    99 1 "hi" ⟨1, 10, 20, BookingStatus.PENDING⟩ rfl (by decide) (by decide)

/-- C10: send_message answers a missing booking with "Booking not found"
and an existing booking whose sender is not a participant with
"Access denied" — two distinct error messages, so send_message reveals
booking existence — while join_booking emits nothing and leaves the room
list unchanged in both situations. -/
theorem C10_send_message_reveals_existence (st : ChatState) (uid bid : Nat)
    (body : String) (rooms : List Nat) :
    (findBooking st.bookings bid = none →
      (sendMessage st uid bid body).events = st.events ++ [.errorEvent "Booking not found"] ∧
      (sendMessage st uid bid body).messages = st.messages ∧
      joinBooking st.bookings uid bid rooms = (rooms, [])) ∧
    (∀ b, findBooking st.bookings bid = some b →
      b.customerId ≠ uid → b.providerId ≠ uid →
      (sendMessage st uid bid body).events = st.events ++ [.errorEvent "Access denied"] ∧
      (sendMessage st uid bid body).messages = st.messages ∧
      joinBooking st.bookings uid bid rooms = (rooms, [])) ∧
    SocketEvent.errorEvent "Booking not found" ≠ SocketEvent.errorEvent "Access denied" := by
  refine ⟨?_, ?_, by decide⟩
  · intro hnone
    rw [sendMessage, hnone, joinBooking, hnone]
    simp
  · intro b hfind hc hp
    rw [sendMessage, hfind, joinBooking, hfind]
    have hnp : ¬(b.customerId = uid ∨ b.providerId = uid) := by
      rintro (h | h) <;> [exact hc h; exact hp h]
    simp [hc, hp, hnp]

/-- Witness for C10_send_message_reveals_existence: booking 7 does not
exist; booking 1 exists but user 99 is not a participant. -/
theorem C10_send_message_reveals_existence_witness :
    ((sendMessage ⟨[⟨1, 10, 20, BookingStatus.PENDING⟩], [], [], []⟩ 99 7 "hi").events =
      [] ++ [.errorEvent "Booking not found"] ∧
     (sendMessage ⟨[⟨1, 10, 20, BookingStatus.PENDING⟩], [], [], []⟩ 99 7 "hi").messages = [] ∧
     joinBooking [⟨1, 10, 20, BookingStatus.PENDING⟩] 99 7 [] = ([], [])) ∧
    ((sendMessage ⟨[⟨1, 10, 20, BookingStatus.PENDING⟩], [], [], []⟩ 99 1 "hi").events =
      [] ++ [.errorEvent "Access denied"] ∧
     (sendMessage ⟨[⟨1, 10, 20, BookingStatus.PENDING⟩], [], [], []⟩ 99 1 "hi").messages = [] ∧
     joinBooking [⟨1, 10, 20, BookingStatus.PENDING⟩] 99 1 [] = ([], [])) :=
  ⟨(C10_send_message_reveals_existence
      ⟨[⟨1, 10, 20, BookingStatus.PENDING⟩], [], [], []⟩ 99 7 "hi" []).1 rfl,
   (C10_send_message_reveals_existence
      ⟨[⟨1, 10, 20, BookingStatus.PENDING⟩], [], [], []⟩ 99 1 "hi" []).2.1
      ⟨1, 10, 20, BookingStatus.PENDING⟩ rfl (by decide) (by decide)⟩

/-- A user row as consulted by the email helper. -/
structure User where
  id : Nat
  email : String
  fullName : String
deriving DecidableEq, Repr

/-- The email environment of lib/email.ts: the EMAIL_ENABLED flag, whether
`initializeEmailService` produced a transporter, whether the recipient
lookup in the store succeeds (its failure is caught and turned into a
null address), and whether `transporter.sendMail` succeeds (its failure
is caught inside `sendEmail`, which then returns false). -/
structure EmailEnv where
  emailEnabled : Bool
  hasTransporter : Bool
  lookupOk : Bool
  transportOk : Bool
deriving DecidableEq, Repr

/-- An email actually handed to the transport. -/
structure SentEmail where
  toAddr : String
deriving DecidableEq, Repr

/-- `getUserEmail` (lib/email.ts): look the user up, returning null on a
caught store error, a missing user, or an empty address
(`user?.email || null`). -/
def getUserEmail (users : List User) (env : EmailEnv) (uid : Nat) : Option String :=
  if env.lookupOk = false then none
  else
    match users.find? (fun u => u.id == uid) with
    | none => none
    | some u => if u.email = "" then none else some u.email

/-- `sendEmail` (lib/email.ts): false when there is no transporter or
email is disabled; otherwise reports whether the transport delivered
(a thrown transport error is caught and becomes false). -/
def sendEmail (env : EmailEnv) : Bool :=
  if env.hasTransporter = false ∨ env.emailEnabled = false then false
  else env.transportOk

/-- `sendEmailNotification` (lib/email.ts): silently return when email is
disabled or unconfigured, silently return when no recipient address
resolves, otherwise render the template and hand off; every failure is
swallowed, so the only observable effect is the list (empty or
singleton) of emails given to the transport. -/
def sendEmailNotification (env : EmailEnv) (users : List User) (uid : Nat) :
    List SentEmail :=
  if env.emailEnabled = false ∨ env.hasTransporter = false then []
  else
    match getUserEmail users env uid with
    | none => []
    | some addr => if sendEmail env then [⟨addr⟩] else []

/-- The persistent state a booking-status dispatch can touch. -/
structure SysState where
  bookings : List Booking
  users : List User
  ledger : List Notif
  emails : List SentEmail
deriving DecidableEq, Repr

/-- The dispatch pipeline of `notifyBookingStatusChange`: resolve the
status message (no-op for an unknown status), write the notification
row to the ledger, push it to the recipient's user room (no persistent
effect), then best-effort email the recipient `booking.customerId`. -/
def dispatchBookingStatusChange (st : SysState) (env : EmailEnv)
    (booking : Booking) (status : BookingStatus) : SysState :=
  match notifyBookingStatusChange booking status with
  | none => st
  | some notif =>
    let st1 := { st with ledger := st.ledger ++ [notif] }
    { st1 with
      emails := st1.emails ++ sendEmailNotification env st1.users booking.customerId }

/-- C7: for every email environment — disabled email, missing transporter,
failing recipient lookup, missing or empty recipient address, failing
transport — the dispatch leaves the booking table untouched and writes
exactly the same ledger row as a fully successful email run: an email
failure neither alters the persisted booking status nor removes or
modifies the notification already written, and the dispatch function
is total, so no email failure propagates to its caller. -/
theorem C7_email_failure_isolated (st : SysState) (env : EmailEnv)
    (booking : Booking) (status : BookingStatus) :
    (dispatchBookingStatusChange st env booking status).bookings = st.bookings ∧
    (dispatchBookingStatusChange st env booking status).ledger =
      (dispatchBookingStatusChange st ⟨true, true, true, true⟩ booking status).ledger := by
  cases status <;> simp [dispatchBookingStatusChange, notifyBookingStatusChange]

/-- Notification row as listed by GET /notifications: owner, read flag
and creation time. -/
structure NotifRow where
  id : Nat
  userId : Nat
  read : Bool
  createdAt : Nat
deriving DecidableEq, Repr

/-- The prisma `where` filter of GET /notifications: rows of the current
user, and additionally only unread ones when unreadOnly === "true". -/
def notifWhere (uid : Nat) (unreadOnly : Bool) (n : NotifRow) : Bool :=
  n.userId == uid && (!unreadOnly || n.read == false)

/-- `orderBy: { createdAt: "desc" }`: newer (or equal) creation time
comes first. -/
def newestFirst (a b : NotifRow) : Prop := b.createdAt ≤ a.createdAt

instance : DecidableRel newestFirst := fun a b => Nat.decLe b.createdAt a.createdAt

instance : IsTotal NotifRow newestFirst :=
  ⟨fun a b => Nat.le_total b.createdAt a.createdAt⟩

instance : IsTrans NotifRow newestFirst :=
  ⟨fun _ _ _ hab hbc => le_trans hbc hab⟩

/-- GET /notifications: `findMany({ where, orderBy: createdAt desc,
take: 50 })` — filter to the user's rows, order newest first, return at
most 50. -/
def listNotifications (db : List NotifRow) (uid : Nat) (unreadOnly : Bool) :
    List NotifRow :=
  (List.insertionSort newestFirst (db.filter (notifWhere uid unreadOnly))).take 50

/-- C9: the listing returns at most 50 rows, every returned row belongs
to the requesting user, with unreadOnly every returned row is unread,
and the result is ordered newest-first by creation time. -/
theorem C9_list_notifications (db : List NotifRow) (uid : Nat) (unreadOnly : Bool) :
    (listNotifications db uid unreadOnly).length ≤ 50 ∧
    (∀ n ∈ listNotifications db uid unreadOnly, n.userId = uid) ∧
    (∀ n ∈ listNotifications db uid true, n.read = false) ∧
    List.Sorted newestFirst (listNotifications db uid unreadOnly) := by
  refine ⟨?_, ?_, ?_, ?_⟩
  · exact List.length_take_le 50 _
  · intro n hn
    have hmem : n ∈ db.filter (notifWhere uid unreadOnly) :=
      (List.mem_insertionSort newestFirst).1 (List.mem_of_mem_take hn)
    have hw := (List.mem_filter.1 hmem).2
    simp [notifWhere] at hw
    exact hw.1
  · intro n hn
    have hmem : n ∈ db.filter (notifWhere uid true) :=
      (List.mem_insertionSort newestFirst).1 (List.mem_of_mem_take hn)
    have hw := (List.mem_filter.1 hmem).2
    simp [notifWhere] at hw
    exact hw.2
  · exact ((List.sorted_insertionSort newestFirst _).sublist (List.take_sublist _ _))

/-- Witness for C9_list_notifications at a concrete two-user ledger. -/
theorem C9_list_notifications_witness :
    (listNotifications [⟨1, 7, false, 5⟩, ⟨2, 8, false, 9⟩] 7 false).length ≤ 50 ∧
    (⟨1, 7, false, 5⟩ : NotifRow).userId = 7 ∧
    (⟨1, 7, false, 5⟩ : NotifRow).read = false ∧
    List.Sorted newestFirst (listNotifications [⟨1, 7, false, 5⟩, ⟨2, 8, false, 9⟩] 7 false) := by
  have h := C9_list_notifications [⟨1, 7, false, 5⟩, ⟨2, 8, false, 9⟩] 7 false
  have h2 := C9_list_notifications [⟨1, 7, false, 5⟩, ⟨2, 8, false, 9⟩] 7 true
  exact ⟨h.1, h.2.1 ⟨1, 7, false, 5⟩ (by decide), h2.2.2.1 ⟨1, 7, false, 5⟩ (by decide), h.2.2.2⟩

end HandyBangla
